import Mathlib

/-!
Shallow embedding of the Abaqus model-building scripts in `src/principal`
(`def_geometrie.py`, `def_force.py`, `def_boundaryconditions.py`, `main.py`).

Conventions of the embedding:
* Python floats are modelled as `ℚ` (the scripts only do field arithmetic
  and comparisons on them).
* A Python function that can `raise` is modelled as returning
  `Except String α`; `Except.error` is a raised exception, `Except.ok` a
  normal return.  Sequential checks become nested matches / ifs in the
  order the source performs them.
* Abaqus-side state (parts, sketches, instances, probe results) is made
  explicit: registries become finite sets of names, a bounding-box probe
  becomes the number (or set) of entities it returns, which the embedded
  function takes as an argument.
-/

/-- The `param_geom` dictionary of `main.py` (geometry parameters).
`r_moy` is the extra entry `main.py` inserts after building the dictionary. -/
structure GeomParams where
  dim_tour : String
  r_up_tower : ℚ
  r_down_tower : ℚ
  h_tower : ℚ
  thickness_tower : ℚ
  plateau_radius : ℚ
  plateau_height : ℚ
  cone_height : ℚ
  cone_top_outer_radius : ℚ
  cone_bottom_outer_radius : ℚ
  cone_thickness : ℚ
  cyl_height : ℚ
  r_moy : ℚ := 0
  deriving DecidableEq

/-- The concrete parameter values of `main.py` (lines 43-70); `r_moy` is
set by `main.py` to `(r_up_tower + r_down_tower) / 2.0 = 2.75`. -/
def main_param_geom : GeomParams where
  dim_tour := "1D"
  r_up_tower := 2.0
  r_down_tower := 3.5
  h_tower := 50.0
  thickness_tower := 0.5
  plateau_radius := 15.5
  plateau_height := 1.7
  cone_height := 27.3
  cone_top_outer_radius := 3.5
  cone_bottom_outer_radius := 10.0
  cone_thickness := 0.5
  cyl_height := 18.0
  r_moy := 2.75

/-- The `required_positive` list of `check_parameters`
(`def_geometrie.py` lines 57-60), in source order, with the value each
key holds in the dictionary. -/
def required_positive (p : GeomParams) : List (String × ℚ) :=
  [("cone_thickness", p.cone_thickness),
   ("cone_top_outer_radius", p.cone_top_outer_radius),
   ("plateau_radius", p.plateau_radius),
   ("plateau_height", p.plateau_height),
   ("cyl_height", p.cyl_height),
   ("thickness_tower", p.thickness_tower),
   ("h_tower", p.h_tower)]

/-- The positivity loop of `check_parameters` (lines 63-66): the first key
whose value is `<= 0` raises a `ValueError` naming that key. -/
def checkPositive : List (String × ℚ) → Except String Unit
  | [] => Except.ok ()
  | (key, v) :: rest =>
    if v ≤ 0 then
      Except.error ("Erreur parametre : " ++ key ++ " doit etre strictement positif.")
    else checkPositive rest

/-- `check_parameters` (`def_geometrie.py` lines 46-92): positivity loop,
then cone-thickness coherence, then the tower/GBS interface checks, each
raising `ValueError` on failure, in source order. -/
def check_parameters (p : GeomParams) : Except String Unit :=
  match checkPositive (required_positive p) with
  | Except.error e => Except.error e
  | Except.ok _ =>
    if p.cone_bottom_outer_radius ≤ p.cone_thickness then
      Except.error "Le rayon bas du cone est trop petit par rapport a son epaisseur."
    else
      -- r_gbs_ext, r_gbs_hole, r_tower_bot of lines 76-78
      if p.r_down_tower ≤ p.cone_top_outer_radius - p.cone_thickness then
        Except.error "ERREUR : La base de la tour est plus petite que le trou du GBS."
      else if p.r_down_tower > p.cone_top_outer_radius then
        Except.error "ERREUR : La tour depasse du sommet du GBS."
      else Except.ok ()

/-- `true` iff the computation returned normally (did not raise). -/
def exceptOk {α : Type} : Except String α → Bool
  | Except.ok _ => true
  | Except.error _ => false

/-- Claim C1 as stated by the spec: `check_parameters` returns without
raising iff ALL model lengths and thicknesses are strictly positive
(tower radii and height, tower thickness, plateau radius and height,
cone height, cone radii and thickness, cylinder height), the cone bottom
outer radius exceeds the cone thickness, and the tower base radius lies
strictly above the hole radius and at or below the top outer radius. -/
def check_parameters_claimed_spec (p : GeomParams) : Prop :=
  exceptOk (check_parameters p) = true ↔
    (0 < p.r_up_tower ∧ 0 < p.r_down_tower ∧ 0 < p.h_tower ∧
     0 < p.thickness_tower ∧ 0 < p.plateau_radius ∧ 0 < p.plateau_height ∧
     0 < p.cone_height ∧ 0 < p.cone_top_outer_radius ∧
     0 < p.cone_bottom_outer_radius ∧ 0 < p.cone_thickness ∧
     0 < p.cyl_height ∧
     p.cone_thickness < p.cone_bottom_outer_radius ∧
     p.cone_top_outer_radius - p.cone_thickness < p.r_down_tower ∧
     p.r_down_tower ≤ p.cone_top_outer_radius)

theorem checkPositive_ok_iff (l : List (String × ℚ)) :
    exceptOk (checkPositive l) = true ↔ ∀ kv ∈ l, 0 < kv.2 := by
  induction l with
  | nil => simp [checkPositive, exceptOk]
  | cons hd tl ih =>
    obtain ⟨k, v⟩ := hd
    by_cases h : v ≤ 0
    · simp only [checkPositive, if_pos h, exceptOk]
      constructor
      · intro hfalse; cases hfalse
      · intro hall
        have := hall (k, v) (List.mem_cons_self _ _)
        exact absurd this (by simpa using h)
    · simp only [checkPositive, if_neg h, ih]
      push_neg at h
      constructor
      · intro hall kv hkv
        rcases List.mem_cons.mp hkv with heq | hmem
        · subst heq; exact h
        · exact hall kv hmem
      · intro hall kv hkv; exact hall kv (List.mem_cons_of_mem _ hkv)

/-- Claim C1, counterexample: with `main.py` parameters but
`cone_height = -1`, `check_parameters` returns without raising even
though a required length of the model (the cone height) is not strictly
positive, refuting the claimed equivalence (`cone_height` is absent from
the `required_positive` list of the code). -/
theorem c1_counterexample :
    ¬ check_parameters_claimed_spec { main_param_geom with cone_height := -1 } := by
  intro hclaim
  unfold check_parameters_claimed_spec at hclaim
  have hok : exceptOk (check_parameters { main_param_geom with cone_height := -1 }) = true := by
    norm_num [check_parameters, required_positive, checkPositive, main_param_geom, exceptOk]
  have := (hclaim.mp hok).2.2.2.2.2.2.1
  norm_num [main_param_geom] at this

/-- Helper: exact characterization of when `check_parameters` returns
without raising, read off the source checks. -/
theorem check_parameters_ok_iff (p : GeomParams) :
    exceptOk (check_parameters p) = true ↔
      (0 < p.cone_thickness ∧ 0 < p.cone_top_outer_radius ∧
       0 < p.plateau_radius ∧ 0 < p.plateau_height ∧ 0 < p.cyl_height ∧
       0 < p.thickness_tower ∧ 0 < p.h_tower ∧
       p.cone_thickness < p.cone_bottom_outer_radius ∧
       p.cone_top_outer_radius - p.cone_thickness < p.r_down_tower ∧
       p.r_down_tower ≤ p.cone_top_outer_radius) := by
  have hpos := checkPositive_ok_iff (required_positive p)
  unfold check_parameters
  rcases hcp : checkPositive (required_positive p) with e | v
  · -- the positivity loop raised
    rw [hcp] at hpos
    simp only [exceptOk, Bool.false_eq_true, false_iff] at hpos ⊢
    intro hconj
    apply hpos
    intro kv hkv
    simp only [required_positive, List.mem_cons, List.not_mem_nil, or_false] at hkv
    rcases hkv with h | h | h | h | h | h | h <;> subst h
    · exact hconj.1
    · exact hconj.2.1
    · exact hconj.2.2.1
    · exact hconj.2.2.2.1
    · exact hconj.2.2.2.2.1
    · exact hconj.2.2.2.2.2.1
    · exact hconj.2.2.2.2.2.2.1
  · -- the positivity loop passed
    rw [hcp] at hpos
    simp only [exceptOk, true_iff] at hpos
    have h1 : 0 < p.cone_thickness :=
      hpos ("cone_thickness", p.cone_thickness) (by simp [required_positive])
    have h2 : 0 < p.cone_top_outer_radius :=
      hpos ("cone_top_outer_radius", p.cone_top_outer_radius) (by simp [required_positive])
    have h3 : 0 < p.plateau_radius :=
      hpos ("plateau_radius", p.plateau_radius) (by simp [required_positive])
    have h4 : 0 < p.plateau_height :=
      hpos ("plateau_height", p.plateau_height) (by simp [required_positive])
    have h5 : 0 < p.cyl_height :=
      hpos ("cyl_height", p.cyl_height) (by simp [required_positive])
    have h6 : 0 < p.thickness_tower :=
      hpos ("thickness_tower", p.thickness_tower) (by simp [required_positive])
    have h7 : 0 < p.h_tower :=
      hpos ("h_tower", p.h_tower) (by simp [required_positive])
    split_ifs with hthick hhole hover
    · simp only [exceptOk, Bool.false_eq_true, false_iff]
      intro hconj
      exact absurd hconj.2.2.2.2.2.2.2.1 (not_lt.mpr hthick)
    · simp only [exceptOk, Bool.false_eq_true, false_iff]
      intro hconj
      exact absurd hconj.2.2.2.2.2.2.2.2.1 (not_lt.mpr hhole)
    · simp only [exceptOk, Bool.false_eq_true, false_iff]
      intro hconj
      exact absurd hconj.2.2.2.2.2.2.2.2.2 (not_le.mpr hover)
    · simp only [exceptOk, true_iff]
      push_neg at hthick hhole hover
      exact ⟨h1, h2, h3, h4, h5, h6, h7, hthick, hhole, hover⟩

/-- Claim C1 (amended): `check_parameters p` returns without raising iff
the seven keys of its `required_positive` list (cone thickness, cone top
outer radius, plateau radius, plateau height, cylinder height, tower
thickness, tower height) are strictly positive, the cone bottom outer
radius exceeds the cone thickness, and the tower base radius lies
strictly above the hole radius `cone_top_outer_radius - cone_thickness`
and at or below `cone_top_outer_radius`.  Positivity of `cone_height`,
`cone_bottom_outer_radius`, `r_up_tower` and `r_down_tower` is never
checked directly (the bottom radius is only constrained relative to the
cone thickness); any violated check raises a `ValueError`. -/
theorem c1_check_parameters_ok_iff (p : GeomParams) :
    exceptOk (check_parameters p) = true ↔
      (0 < p.cone_thickness ∧ 0 < p.cone_top_outer_radius ∧
       0 < p.plateau_radius ∧ 0 < p.plateau_height ∧ 0 < p.cyl_height ∧
       0 < p.thickness_tower ∧ 0 < p.h_tower ∧
       p.cone_thickness < p.cone_bottom_outer_radius ∧
       p.cone_top_outer_radius - p.cone_thickness < p.r_down_tower ∧
       p.r_down_tower ≤ p.cone_top_outer_radius) :=
  check_parameters_ok_iff p

/-- Parameter set of claim C4: the `main.py` values (so
`cone_top_outer_radius = 3.5`, `cone_thickness = 0.5`, hole radius `3.0`,
every other check satisfied) with the tower base radius as a parameter. -/
def c4_params (r : ℚ) : GeomParams :=
  { main_param_geom with r_down_tower := r }

/-- Claim C4: with hole radius 3.0 and GBS top outer radius 3.5,
`check_parameters` accepts exactly `3 < r_down_tower ≤ 3.5`: it passes
for 3.5 and for 3.01, raises the falls-into-hole error for 2.9, and
rejects `r_down_tower` equal to the hole radius 3.0. -/
theorem c4_interface_annulus :
    (∀ r : ℚ, exceptOk (check_parameters (c4_params r)) = true ↔ (3 < r ∧ r ≤ 3.5)) ∧
    exceptOk (check_parameters (c4_params 3.5)) = true ∧
    exceptOk (check_parameters (c4_params 3.01)) = true ∧
    check_parameters (c4_params 2.9) =
      Except.error "ERREUR : La base de la tour est plus petite que le trou du GBS." ∧
    exceptOk (check_parameters (c4_params 3)) = false := by
  have hiff : ∀ r : ℚ,
      exceptOk (check_parameters (c4_params r)) = true ↔ (3 < r ∧ r ≤ 3.5) := by
    intro r
    rw [check_parameters_ok_iff]
    norm_num [c4_params, main_param_geom]
  refine ⟨hiff, ?_, ?_, ?_, ?_⟩
  · exact (hiff 3.5).mpr (by norm_num)
  · exact (hiff 3.01).mpr (by norm_num)
  · norm_num [c4_params, main_param_geom, check_parameters, required_positive,
      checkPositive, exceptOk]
  · rcases hres : check_parameters (c4_params 3) with e | v
    · rfl
    · have : exceptOk (check_parameters (c4_params 3)) = true := by
        rw [hres]; rfl
      have h3 := (hiff 3).mp this
      norm_num at h3

/-- Python `max(l) if l else 0.0` (`def_force.py` lines 176-177). -/
def pyMax : List ℚ → ℚ
  | [] => 0
  | x :: xs => xs.foldl max x

theorem le_foldl_max (xs : List ℚ) : ∀ a : ℚ, a ≤ xs.foldl max a := by
  induction xs with
  | nil => intro a; exact le_refl a
  | cons b xs ih =>
    intro a
    calc a ≤ max a b := le_max_left a b
    _ ≤ xs.foldl max (max a b) := ih (max a b)

theorem mem_le_foldl_max (xs : List ℚ) :
    ∀ (a x : ℚ), x ∈ xs → x ≤ xs.foldl max a := by
  induction xs with
  | nil => intro a x hx; cases hx
  | cons b ys ih =>
    intro a x hx
    rcases List.mem_cons.mp hx with heq | hmem
    · subst heq
      calc x ≤ max a x := le_max_right a x
      _ ≤ ys.foldl max (max a x) := le_foldl_max ys (max a x)
    · exact ih (max a b) x hmem

theorem mem_le_pyMax (l : List ℚ) (x : ℚ) (hx : x ∈ l) : x ≤ pyMax l := by
  cases l with
  | nil => cases hx
  | cons a xs =>
    rcases List.mem_cons.mp hx with heq | hmem
    · subst heq
      exact le_foldl_max xs x
    · exact mem_le_foldl_max xs a x hmem

/-- `process_load_data` (`def_force.py` lines 162-192): computes the
maximum absolute value and the maximum time of the series; if the peak
exceeds 1.0, the series is rescaled by the peak and the peak returned as
magnitude, otherwise the data is kept raw and the magnitude is 1.0.
Returns `(norm_data, magnitude, duration)` as the source does. -/
def process_load_data (raw_data : List (ℚ × ℚ)) : List (ℚ × ℚ) × ℚ × ℚ :=
  let values := raw_data.map (fun point => |point.2|)
  let times := raw_data.map (fun point => point.1)
  let max_val := pyMax values
  let duration := pyMax times
  if 1 < max_val then
    (raw_data.map (fun tv => (tv.1, tv.2 / max_val)), max_val, duration)
  else
    (raw_data, 1, duration)

/-- Claim C5 as stated by the spec: for every non-empty load series,
the returned magnitude is the peak absolute value, the returned series
is the input rescaled by that peak, and the returned duration is the
maximum time. -/
def process_load_data_claimed_spec (raw : List (ℚ × ℚ)) : Prop :=
  raw ≠ [] →
    (process_load_data raw).2.1 = pyMax (raw.map (fun point => |point.2|)) ∧
    (process_load_data raw).1 =
      raw.map (fun tv => (tv.1, tv.2 / pyMax (raw.map (fun point => |point.2|)))) ∧
    (process_load_data raw).2.2 = pyMax (raw.map (fun point => point.1))

/-- Claim C5, counterexample: on the series `[(2, 1/2)]` (peak 1/2, not
above 1.0), `process_load_data` returns magnitude 1 and the raw series,
not the peak 1/2 and the rescaled series the claim demands. -/
theorem c5_counterexample :
    ¬ process_load_data_claimed_spec [((2 : ℚ), 1/2)] := by
  intro hclaim
  have h := (hclaim (by simp)).1
  have habs : |(1 : ℚ)/2| = 1/2 := abs_of_pos (by norm_num)
  norm_num [process_load_data, pyMax, habs] at h

/-- Claim C5 (amended): for every load series, `process_load_data`
returns the maximum time as duration; when the peak absolute value
exceeds 1.0 it returns that peak as the magnitude and the series rescaled
by it (so every normalized value lies in `[-1, 1]`); when the peak is at
most 1.0 it returns magnitude 1.0 and the series unchanged. -/
theorem c5_process_load_data (raw : List (ℚ × ℚ)) :
    ((process_load_data raw).2.2 = pyMax (raw.map (fun point => point.1))) ∧
    (1 < pyMax (raw.map (fun point => |point.2|)) →
      (process_load_data raw).2.1 = pyMax (raw.map (fun point => |point.2|)) ∧
      (process_load_data raw).1 =
        raw.map (fun tv => (tv.1, tv.2 / pyMax (raw.map (fun point => |point.2|)))) ∧
      ∀ tv ∈ (process_load_data raw).1, |tv.2| ≤ 1) ∧
    (pyMax (raw.map (fun point => |point.2|)) ≤ 1 →
      (process_load_data raw).2.1 = 1 ∧ (process_load_data raw).1 = raw) := by
  set peak := pyMax (raw.map (fun point => |point.2|)) with hpeak
  by_cases hgt : 1 < peak
  · refine ⟨?_, fun _ => ⟨?_, ?_, ?_⟩, fun hle => absurd hgt (not_lt.mpr hle)⟩
    · simp only [process_load_data, ← hpeak, if_pos hgt]
    · simp only [process_load_data, ← hpeak, if_pos hgt]
    · simp only [process_load_data, ← hpeak, if_pos hgt]
    · intro tv htv
      simp only [process_load_data, ← hpeak, if_pos hgt, List.mem_map] at htv
      obtain ⟨ab, hab, habeq⟩ := htv
      have hb : |ab.2| ≤ peak := by
        apply mem_le_pyMax
        exact List.mem_map.mpr ⟨ab, hab, rfl⟩
      have hpos : (0 : ℚ) < peak := lt_trans one_pos hgt
      have : |tv.2| = |ab.2| / peak := by
        rw [← habeq]
        simp only [abs_div, abs_of_pos hpos]
      rw [this]
      exact (div_le_one hpos).mpr hb
  · refine ⟨?_, fun hlt => absurd hlt hgt, fun _ => ⟨?_, ?_⟩⟩
    · simp only [process_load_data, ← hpeak, if_neg hgt]
    · simp only [process_load_data, ← hpeak, if_neg hgt]
    · simp only [process_load_data, ← hpeak, if_neg hgt]

/-- Claim C5, witness: the amended theorem applied to the concrete
series `[(4, -5000)]` (peak 5000, duration 4 s). -/
theorem c5_witness :
    (process_load_data [((4 : ℚ), -5000)]).2.1 = 5000 ∧
    (process_load_data [((4 : ℚ), -5000)]).2.2 = 4 := by
  have habs : |(-5000 : ℚ)| = 5000 := by
    rw [abs_of_neg (by norm_num)]; norm_num
  have h := c5_process_load_data [((4 : ℚ), -5000)]
  have hpeak : pyMax ([((4 : ℚ), -5000)].map (fun point => |point.2|)) = 5000 := by
    simp [pyMax, habs]
  constructor
  · rw [(h.2.1 (by rw [hpeak]; norm_num)).1, hpeak]
  · rw [h.1]
    simp [pyMax]

/-- Shape-level outcome of `create_tower_3d`: either a single solid
revolved part, or a boolean cut of a temporary outer body by a temporary
inner body; each body is recorded by its revolve profile
`(r_bottom, r_top, height)`. -/
inductive TowerConstruction where
  | solidRevolve (r_bot r_top height : ℚ)
  | booleanCut (outer inner : ℚ × ℚ × ℚ)
  deriving DecidableEq

/-- Whether the construction performed `InstanceFromBooleanCut`. -/
def TowerConstruction.usesCut : TowerConstruction → Bool
  | TowerConstruction.solidRevolve _ _ _ => false
  | TowerConstruction.booleanCut _ _ => true

/-- The branch logic of `create_tower_3d` (`def_geometrie.py` lines
176-215): inner radii `r_up_in = r_up - t`, `r_down_in = r_down - t`;
`is_hollow = (r_up_in > 0 and r_down_in > 0)`; if hollow, the part is
the boolean cut of the outer revolve by the inner revolve, otherwise a
single solid revolve. -/
def create_tower_3d (p : GeomParams) : TowerConstruction :=
  let r_up_in := p.r_up_tower - p.thickness_tower
  let r_down_in := p.r_down_tower - p.thickness_tower
  if 0 < r_up_in ∧ 0 < r_down_in then
    TowerConstruction.booleanCut (p.r_down_tower, p.r_up_tower, p.h_tower)
      (r_down_in, r_up_in, p.h_tower)
  else
    TowerConstruction.solidRevolve p.r_down_tower p.r_up_tower p.h_tower

/-- Claim C6: the boolean-cut path is taken exactly when both derived
inner radii are strictly positive; whenever `r_up_in <= 0` or
`r_down_in <= 0` the tower is built as a single solid revolved part and
no cut is attempted. -/
theorem c6_tower_solid_vs_cut (p : GeomParams) :
    ((create_tower_3d p).usesCut = true ↔
      (0 < p.r_up_tower - p.thickness_tower ∧
       0 < p.r_down_tower - p.thickness_tower)) ∧
    ((p.r_up_tower - p.thickness_tower ≤ 0 ∨
      p.r_down_tower - p.thickness_tower ≤ 0) →
      create_tower_3d p =
        TowerConstruction.solidRevolve p.r_down_tower p.r_up_tower p.h_tower) := by
  simp only [create_tower_3d]
  split_ifs with h
  · refine ⟨by simp [TowerConstruction.usesCut, h], fun hle => ?_⟩
    rcases hle with hle | hle
    · exact absurd h.1 (not_lt.mpr hle)
    · exact absurd h.2 (not_lt.mpr hle)
  · refine ⟨⟨fun hfalse => ?_, fun hc => absurd hc h⟩, fun _ => rfl⟩
    simp [TowerConstruction.usesCut] at hfalse

/-- Claim C6, witness: with the `main.py` radii but a 5 m wall thickness
the upper inner radius is negative, and the construction is the single
solid revolve with no cut. -/
theorem c6_witness :
    create_tower_3d { main_param_geom with thickness_tower := 5 } =
      TowerConstruction.solidRevolve 3.5 2 50 := by
  have h := (c6_tower_solid_vs_cut { main_param_geom with thickness_tower := 5 }).2
    (Or.inl (by norm_num [main_param_geom]))
  rw [h]
  norm_num [main_param_geom]

/-- `r_moy` as computed by `main.py` lines 69-70 and stored in the
parameter dictionary. -/
def main_r_moy (p : GeomParams) : ℚ := (p.r_up_tower + p.r_down_tower) / 2

/-- The magnitude-conversion step of `apply_force_automatic`
(`def_force.py` lines 100-114): in 1D mode the pressure is multiplied by
the projected diameter `2 * r_moy`; in 3D mode it is kept unchanged. -/
def apply_force_final_mag (p : GeomParams) (magnitude : ℚ) : ℚ :=
  if p.dim_tour = "1D" then magnitude * (2 * p.r_moy) else magnitude

/-- Claim C9: when the tower is a 1D beam and `r_moy` holds the value
`(r_up_tower + r_down_tower) / 2` set by `main.py`, the applied magnitude
is the input pressure times the projected diameter `2 * r_moy`; in any
other mode the magnitude is applied unchanged. -/
theorem c9_force_conversion (p : GeomParams) (magnitude : ℚ) :
    (p.dim_tour = "1D" → p.r_moy = main_r_moy p →
      apply_force_final_mag p magnitude =
        magnitude * (2 * ((p.r_up_tower + p.r_down_tower) / 2))) ∧
    (p.dim_tour ≠ "1D" → apply_force_final_mag p magnitude = magnitude) := by
  constructor
  · intro h1 h2
    simp [apply_force_final_mag, h1, h2, main_r_moy]
  · intro h1
    simp [apply_force_final_mag, h1]

/-- Claim C9, witness: the conversion applied to the `main.py`
parameters (1D mode, `r_moy = 2.75`) and a 100 Pa pressure. -/
theorem c9_witness :
    apply_force_final_mag main_param_geom 100 =
      100 * (2 * ((main_param_geom.r_up_tower + main_param_geom.r_down_tower) / 2)) :=
  (c9_force_conversion main_param_geom 100).1 rfl
    (by norm_num [main_param_geom, main_r_moy])

/-- The three name registries of an Abaqus model that `clean_features`
touches: `model.parts`, `model.sketches`,
`model.rootAssembly.instances` (keyed dictionaries, modelled by their
key sets). -/
structure AbqModel where
  parts : Finset String
  sketches : Finset String
  instances : Finset String
  deriving DecidableEq

theorem AbqModel.ext_eq (a b : AbqModel) (h1 : a.parts = b.parts)
    (h2 : a.sketches = b.sketches) (h3 : a.instances = b.instances) : a = b := by
  cases a; cases b; simp_all

/-- One iteration of the `clean_features` loop (`def_geometrie.py` lines
32-39): delete `name` from the registry selected by `object_type`, but
only when that registry currently contains it; otherwise do nothing. -/
def clean_features_step (object_type : String) (m : AbqModel) (name : String) : AbqModel :=
  if object_type = "Part" ∧ name ∈ m.parts then
    { m with parts := m.parts.erase name }
  else if object_type = "Sketch" ∧ name ∈ m.sketches then
    { m with sketches := m.sketches.erase name }
  else if object_type = "Instance" ∧ name ∈ m.instances then
    { m with instances := m.instances.erase name }
  else m

/-- `clean_features` (`def_geometrie.py` lines 19-39): the loop over
`object_names`. -/
def clean_features (m : AbqModel) (object_names : List String)
    (object_type : String) : AbqModel :=
  object_names.foldl (clean_features_step object_type) m

theorem clean_features_step_parts (ty : String) (m : AbqModel) (name : String) :
    (clean_features_step ty m name).parts =
      if ty = "Part" then m.parts.erase name else m.parts := by
  unfold clean_features_step
  split_ifs with h1 h2 h3 <;> simp_all

theorem clean_features_step_sketches (ty : String) (m : AbqModel) (name : String) :
    (clean_features_step ty m name).sketches =
      if ty = "Sketch" then m.sketches.erase name else m.sketches := by
  unfold clean_features_step
  split_ifs with h1 h2 h3 <;> simp_all

theorem clean_features_step_instances (ty : String) (m : AbqModel) (name : String) :
    (clean_features_step ty m name).instances =
      if ty = "Instance" then m.instances.erase name else m.instances := by
  unfold clean_features_step
  split_ifs with h1 h2 h3 <;> simp_all

theorem mem_foldl_erase (l : List String) (s : Finset String) (n : String) :
    n ∈ l.foldl Finset.erase s ↔ n ∈ s ∧ n ∉ l := by
  induction l generalizing s with
  | nil => simp
  | cons a t ih =>
    simp only [List.foldl_cons, ih, Finset.mem_erase, List.mem_cons]
    constructor
    · rintro ⟨⟨hne, hs⟩, ht⟩
      exact ⟨hs, by rintro (rfl | hmem) <;> [exact hne rfl; exact ht hmem]⟩
    · rintro ⟨hs, hnot⟩
      exact ⟨⟨fun heq => hnot (Or.inl heq), hs⟩, fun hmem => hnot (Or.inr hmem)⟩

theorem clean_features_parts (m : AbqModel) (names : List String) (ty : String) :
    (clean_features m names ty).parts =
      if ty = "Part" then names.foldl Finset.erase m.parts else m.parts := by
  induction names generalizing m with
  | nil => simp [clean_features]
  | cons a t ih =>
    show (clean_features (clean_features_step ty m a) t ty).parts = _
    rw [ih, clean_features_step_parts]
    split_ifs with h <;> simp [h]

theorem clean_features_sketches (m : AbqModel) (names : List String) (ty : String) :
    (clean_features m names ty).sketches =
      if ty = "Sketch" then names.foldl Finset.erase m.sketches else m.sketches := by
  induction names generalizing m with
  | nil => simp [clean_features]
  | cons a t ih =>
    show (clean_features (clean_features_step ty m a) t ty).sketches = _
    rw [ih, clean_features_step_sketches]
    split_ifs with h <;> simp [h]

theorem clean_features_instances (m : AbqModel) (names : List String) (ty : String) :
    (clean_features m names ty).instances =
      if ty = "Instance" then names.foldl Finset.erase m.instances else m.instances := by
  induction names generalizing m with
  | nil => simp [clean_features]
  | cons a t ih =>
    show (clean_features (clean_features_step ty m a) t ty).instances = _
    rw [ih, clean_features_step_instances]
    split_ifs with h <;> simp [h]

/-- Claim C10: `clean_features` deletes exactly the listed names from the
registry matching `object_type` (a listed name that is absent is a
no-op), leaves the other two registries untouched, and leaves the whole
model unchanged when the type string matches no branch; being a total
function of the model state, it returns normally on every input. -/
theorem c10_clean_features (m : AbqModel) (names : List String) (ty n : String) :
    (n ∈ (clean_features m names ty).parts ↔
      n ∈ m.parts ∧ ¬(ty = "Part" ∧ n ∈ names)) ∧
    (n ∈ (clean_features m names ty).sketches ↔
      n ∈ m.sketches ∧ ¬(ty = "Sketch" ∧ n ∈ names)) ∧
    (n ∈ (clean_features m names ty).instances ↔
      n ∈ m.instances ∧ ¬(ty = "Instance" ∧ n ∈ names)) ∧
    (ty ≠ "Part" → ty ≠ "Sketch" → ty ≠ "Instance" →
      clean_features m names ty = m) := by
  refine ⟨?_, ?_, ?_, ?_⟩
  · rw [clean_features_parts]
    split_ifs with h <;> simp [h, mem_foldl_erase]
  · rw [clean_features_sketches]
    split_ifs with h <;> simp [h, mem_foldl_erase]
  · rw [clean_features_instances]
    split_ifs with h <;> simp [h, mem_foldl_erase]
  · intro h1 h2 h3
    apply AbqModel.ext_eq
    · rw [clean_features_parts, if_neg h1]
    · rw [clean_features_sketches, if_neg h2]
    · rw [clean_features_instances, if_neg h3]

/-- Claim C10, witness: deleting with an unmatched type string leaves a
concrete model unchanged, and a listed-but-absent part name is a no-op. -/
theorem c10_witness :
    clean_features ⟨{"Tower_Steel"}, {"s1"}, {"Inst_Tower_1"}⟩
        ["Tower_Steel", "ghost"] "Bogus" =
      ⟨{"Tower_Steel"}, {"s1"}, {"Inst_Tower_1"}⟩ ∧
    ("ghost" ∈ (clean_features ⟨{"Tower_Steel"}, {"s1"}, {"Inst_Tower_1"}⟩
        ["ghost"] "Part").parts ↔ ("ghost" ∈ ({"Tower_Steel"} : Finset String) ∧
          ¬("Part" = "Part" ∧ "ghost" ∈ ["ghost"]))) :=
  ⟨(c10_clean_features ⟨{"Tower_Steel"}, {"s1"}, {"Inst_Tower_1"}⟩
      ["Tower_Steel", "ghost"] "Bogus" "x").2.2.2
      (by simp) (by simp) (by simp),
   (c10_clean_features ⟨{"Tower_Steel"}, {"s1"}, {"Inst_Tower_1"}⟩
      ["ghost"] "Part" "ghost").1⟩

/-- The plateau sketch of `create_fused_gbs` (`def_geometrie.py` lines
290-293): each element is one `s.Line(point1, point2)` call, points as
`(radius, y)`. -/
def plateau_profile (p : GeomParams) : List ((ℚ × ℚ) × (ℚ × ℚ)) :=
  [((0, 0), (p.plateau_radius, 0)),
   ((p.plateau_radius, 0), (p.plateau_radius, p.plateau_height)),
   ((p.plateau_radius, p.plateau_height), (0, p.plateau_height)),
   ((0, p.plateau_height), (0, 0))]

/-- The hollow-cone sketch (`def_geometrie.py` lines 303-306), inner
radii `r_int = r_ext - cone_thickness`. -/
def cone_profile (p : GeomParams) : List ((ℚ × ℚ) × (ℚ × ℚ)) :=
  [((p.cone_bottom_outer_radius, 0), (p.cone_top_outer_radius, p.cone_height)),
   ((p.cone_top_outer_radius, p.cone_height),
    (p.cone_top_outer_radius - p.cone_thickness, p.cone_height)),
   ((p.cone_top_outer_radius - p.cone_thickness, p.cone_height),
    (p.cone_bottom_outer_radius - p.cone_thickness, 0)),
   ((p.cone_bottom_outer_radius - p.cone_thickness, 0),
    (p.cone_bottom_outer_radius, 0))]

/-- The upper-cylinder sketch (`def_geometrie.py` lines 315-319). -/
def cyl_profile (p : GeomParams) : List ((ℚ × ℚ) × (ℚ × ℚ)) :=
  [((p.cone_top_outer_radius, 0), (p.cone_top_outer_radius, p.cyl_height)),
   ((p.cone_top_outer_radius - p.cone_thickness, p.cyl_height),
    (p.cone_top_outer_radius, p.cyl_height)),
   ((p.cone_top_outer_radius - p.cone_thickness, 0),
    (p.cone_top_outer_radius - p.cone_thickness, p.cyl_height)),
   ((p.cone_top_outer_radius - p.cone_thickness, 0), (p.cone_top_outer_radius, 0))]

/-- Top elevation of a revolved sketch in its local frame: the largest
`y` coordinate of any drawn point. -/
def profile_top (segs : List ((ℚ × ℚ) × (ℚ × ℚ))) : ℚ :=
  pyMax (segs.map (fun seg => max seg.1.2 seg.2.2))

/-- The translate vector applied to the cone instance
(`def_geometrie.py` line 335). -/
def cone_translation (p : GeomParams) : ℚ × ℚ × ℚ := (0, p.plateau_height, 0)

/-- The translate vector applied to the cylinder instance
(`def_geometrie.py` line 339). -/
def cyl_translation (p : GeomParams) : ℚ × ℚ × ℚ :=
  (0, p.plateau_height + p.cone_height, 0)

/-- The net translation applied to the tower instance by
`create_assembly_geometry` (`def_geometrie.py` lines 420-425): the
translate call happens only when `abs(dy) > 1e-6`; otherwise the
instance stays where it was created (net translation zero).  No rotation
is ever applied. -/
def tower_translation (h_pipe_bottom h_gbs_top : ℚ) : ℚ × ℚ × ℚ :=
  let dy := h_gbs_top - h_pipe_bottom
  if 1/1000000 < |dy| then (0, dy, 0) else (0, 0, 0)

/-- Claim C8 as stated by the spec: the tower instance is translated by
`(0, h_gbs_top - h_pipe_bottom, 0)` (for every pair of elevations). -/
def tower_translation_claimed_spec (h_pipe_bottom h_gbs_top : ℚ) : Prop :=
  tower_translation h_pipe_bottom h_gbs_top = (0, h_gbs_top - h_pipe_bottom, 0)

/-- Claim C8, counterexample: for `h_gbs_top = 1/2000000` (within the
`1e-6` tolerance) and `h_pipe_bottom = 0`, the code skips the translate
call, so the net translation is `(0, 0, 0)` and not
`(0, h_gbs_top - h_pipe_bottom, 0)`. -/
theorem c8_counterexample : ¬ tower_translation_claimed_spec 0 (1/2000000) := by
  intro hclaim
  unfold tower_translation_claimed_spec tower_translation at hclaim
  have habs : |(1/2000000 : ℚ) - 0| = 1/2000000 := by
    rw [sub_zero]
    exact abs_of_pos (by norm_num)
  rw [if_neg (by rw [habs]; norm_num)] at hclaim
  rw [Prod.mk.injEq, Prod.mk.injEq] at hclaim
  have := hclaim.2.1
  norm_num at this

theorem profile_top_plateau (p : GeomParams) (h1 : 0 ≤ p.plateau_height) :
    profile_top (plateau_profile p) = p.plateau_height := by
  simp only [profile_top, plateau_profile, pyMax, List.map, List.foldl]
  simp [max_self, max_eq_right h1, max_eq_left h1]

theorem profile_top_cone (p : GeomParams) (h2 : 0 ≤ p.cone_height) :
    profile_top (cone_profile p) = p.cone_height := by
  simp only [profile_top, cone_profile, pyMax, List.map, List.foldl]
  simp [max_self, max_eq_right h2, max_eq_left h2]

theorem profile_top_cyl (p : GeomParams) (h3 : 0 ≤ p.cyl_height) :
    profile_top (cyl_profile p) = p.cyl_height := by
  simp only [profile_top, cyl_profile, pyMax, List.map, List.foldl]
  simp [max_self, max_eq_right h3, max_eq_left h3]

/-- Parameter set of the numeric part of claim C8: `plateau_height =
1.7`, `cone_height = 25.34`, `cyl_height = 18.0`. -/
def c8_params : GeomParams := { main_param_geom with cone_height := 25.34 }

/-- Claim C8 (amended): GBS assembly is purely additive vertical
stacking — the cone instance is translated exactly to the plateau top,
the cylinder instance to plateau top + cone top, and the resulting GBS
top elevation is the sum of the three heights (45.04 for 1.7 + 25.34 +
18.0); the tower instance is translated by
`(0, h_gbs_top - h_pipe_bottom, 0)` with no rotation whenever
`|dy| > 1e-6`, and is left untranslated when `|dy| <= 1e-6`. -/
theorem c8_additive_stacking (p : GeomParams) (h_pipe_bottom h_gbs_top : ℚ)
    (h1 : 0 ≤ p.plateau_height) (h2 : 0 ≤ p.cone_height) (h3 : 0 ≤ p.cyl_height) :
    cone_translation p = (0, profile_top (plateau_profile p), 0) ∧
    cyl_translation p =
      (0, profile_top (plateau_profile p) + profile_top (cone_profile p), 0) ∧
    (cyl_translation p).2.1 + profile_top (cyl_profile p) =
      p.plateau_height + p.cone_height + p.cyl_height ∧
    (1/1000000 < |h_gbs_top - h_pipe_bottom| →
      tower_translation h_pipe_bottom h_gbs_top =
        (0, h_gbs_top - h_pipe_bottom, 0)) ∧
    (|h_gbs_top - h_pipe_bottom| ≤ 1/1000000 →
      tower_translation h_pipe_bottom h_gbs_top = (0, 0, 0)) ∧
    (cyl_translation c8_params).2.1 + profile_top (cyl_profile c8_params) = 45.04 := by
  refine ⟨?_, ?_, ?_, ?_, ?_, ?_⟩
  · rw [profile_top_plateau p h1]
    rfl
  · rw [profile_top_plateau p h1, profile_top_cone p h2]
    rfl
  · rw [profile_top_cyl p h3]
    rfl
  · intro hgt
    unfold tower_translation
    rw [if_pos hgt]
  · intro hle
    unfold tower_translation
    rw [if_neg (not_lt.mpr hle)]
  · rw [profile_top_cyl c8_params (by norm_num [c8_params, main_param_geom])]
    norm_num [c8_params, main_param_geom, cyl_translation]

/-- Claim C8, witness: the stacking theorem at the `c8_params` values
with `h_pipe_bottom = 0`, `h_gbs_top = 45.04`: the GBS top elevation is
45.04 and the tower is translated by exactly that amount. -/
theorem c8_witness :
    (cyl_translation c8_params).2.1 + profile_top (cyl_profile c8_params) = 45.04 ∧
    tower_translation 0 45.04 = (0, (45.04 : ℚ) - 0, 0) := by
  have h := c8_additive_stacking c8_params 0 45.04
    (by norm_num [c8_params, main_param_geom])
    (by norm_num [c8_params, main_param_geom])
    (by norm_num [c8_params, main_param_geom])
  refine ⟨h.2.2.2.2.2, h.2.2.2.1 ?_⟩
  rw [show |(45.04 : ℚ) - 0| = 45.04 by rw [sub_zero]; exact abs_of_pos (by norm_num)]
  norm_num

/-- Abstract geometric face, identified by the representative point of
its probe: `y` elevation and `r` radial coordinate. -/
structure Face where
  y : ℚ
  r : ℚ
  deriving DecidableEq

/-- `fus_outer_surfaces` (`def_geometrie.py` lines 434-472): looks up
the two named skin surfaces on the instances (raising `KeyError` when
one is missing) and creates their plain boolean UNION as the global
surface.  Instance surface registries are modelled as partial maps from
surface name to face set. -/
def fus_outer_surfaces (gbs_surfs tower_surfs : String → Option (Finset Face))
    (surf_gbs_key surf_tower_key : String) : Except String (Finset Face) :=
  match gbs_surfs surf_gbs_key with
  | none =>
    Except.error ("La surface " ++ surf_gbs_key ++ " n existe pas sur l instance GBS.")
  | some s_gbs =>
    match tower_surfs surf_tower_key with
    | none =>
      Except.error ("La surface " ++ surf_tower_key ++ " n existe pas sur l instance Tour.")
    | some s_tower => Except.ok (s_gbs ∪ s_tower)

/-- The analytic expression registered by `create_height_mask`
(`def_force.py` lines 5-33): a smooth tanh sigmoid around the cutoff,
`0.5*(1 + tanh((Y - h_cut)*10))` for side `above`,
`0.5*(1 - tanh((Y - h_cut)*10))` for side `below`. -/
inductive MaskFormula where
  | above (h_cut : ℚ)
  | below (h_cut : ℚ)
  deriving DecidableEq

/-- `create_height_mask` (`def_force.py` lines 5-33): returns the mask
expression field for sides `above` and `below` and `None` (no mask) for
any other side string. -/
def create_height_mask (mask_side : String) (h_cut : ℚ) : Option MaskFormula :=
  if mask_side = "above" then some (MaskFormula.above h_cut)
  else if mask_side = "below" then some (MaskFormula.below h_cut)
  else none

/-- The height band at a cutoff, as the spec words describe it (faces
above the cutoff for side `above`, below it for side `below`).  This
definition follows the SPEC, not the code: it exists only to state what
claim C2 asserts about `fus_outer_surfaces`. -/
def heightBand (faces : Finset Face) (mask_side : String) (h_cut : ℚ) : Finset Face :=
  if mask_side = "above" then faces.filter (fun f => h_cut ≤ f.y)
  else if mask_side = "below" then faces.filter (fun f => f.y ≤ h_cut)
  else faces

/-- Claim C2 as stated by the spec: the global load surface built by
`fus_outer_surfaces` is the union of the two skins INTERSECTED with the
height band at the given cutoff and side. -/
def fus_outer_surfaces_claimed_spec (gbs_surfs tower_surfs : String → Option (Finset Face))
    (kg kt mask_side : String) (h_cut : ℚ) : Prop :=
  ∀ s_gbs s_tower, gbs_surfs kg = some s_gbs → tower_surfs kt = some s_tower →
    fus_outer_surfaces gbs_surfs tower_surfs kg kt =
      Except.ok (heightBand (s_gbs ∪ s_tower) mask_side h_cut)

/-- Claim C2, counterexample: with a GBS skin containing one face at
elevation `y = 0` and the cutoff at `h_mer = 40` (side `above`),
`fus_outer_surfaces` returns the face at `y = 0` — it performs no
height-band intersection at all (it takes no cutoff argument). -/
theorem c2_counterexample :
    ¬ fus_outer_surfaces_claimed_spec
        (fun k => if k = "Surf_Concrete_Outer" then some {⟨0, 5⟩} else none)
        (fun k => if k = "Surf_Steel_Outer" then some ∅ else none)
        "Surf_Concrete_Outer" "Surf_Steel_Outer" "above" 40 := by
  intro hclaim
  have h := hclaim {⟨0, 5⟩} ∅ (by simp) (by simp)
  simp only [fus_outer_surfaces, heightBand, if_pos] at h
  rw [Except.ok.injEq] at h
  have hmem : (⟨0, 5⟩ : Face) ∈ ({⟨0, 5⟩} : Finset Face) ∪ ∅ := by simp
  rw [h] at hmem
  rw [Finset.mem_filter] at hmem
  have := hmem.2
  norm_num at this

/-- Claim C2 (amended): `fus_outer_surfaces` checks that both named skin
surfaces exist (raising otherwise) and builds the global surface as
their plain union — a face is in the result iff it is in the GBS skin or
the tower skin; no height-band intersection and no re-probe happens
there.  The height cutoff is instead handled at load-application time by
the analytic tanh mask of `create_height_mask` (present for sides
`above` and `below`, absent otherwise). -/
theorem c2_fus_is_plain_union (gbs_surfs tower_surfs : String → Option (Finset Face))
    (kg kt : String) (h_cut : ℚ) :
    (gbs_surfs kg = none →
      exceptOk (fus_outer_surfaces gbs_surfs tower_surfs kg kt) = false) ∧
    (∀ s_gbs, gbs_surfs kg = some s_gbs → tower_surfs kt = none →
      exceptOk (fus_outer_surfaces gbs_surfs tower_surfs kg kt) = false) ∧
    (∀ s_gbs s_tower, gbs_surfs kg = some s_gbs → tower_surfs kt = some s_tower →
      fus_outer_surfaces gbs_surfs tower_surfs kg kt = Except.ok (s_gbs ∪ s_tower) ∧
      ∀ f : Face, f ∈ s_gbs ∪ s_tower ↔ (f ∈ s_gbs ∨ f ∈ s_tower)) ∧
    (create_height_mask "above" h_cut = some (MaskFormula.above h_cut) ∧
     create_height_mask "below" h_cut = some (MaskFormula.below h_cut) ∧
     create_height_mask "none" h_cut = none) := by
  refine ⟨?_, ?_, ?_, ?_, ?_, ?_⟩
  · intro hg
    simp [fus_outer_surfaces, hg, exceptOk]
  · intro s_gbs hg ht
    simp [fus_outer_surfaces, hg, ht, exceptOk]
  · intro s_gbs s_tower hg ht
    refine ⟨by simp [fus_outer_surfaces, hg, ht], fun f => Finset.mem_union⟩
  · simp [create_height_mask]
  · simp [create_height_mask]
  · simp [create_height_mask]

/-- Claim C2, witness: the amended theorem at concrete registries — the
global surface is exactly the union of the two concrete skins. -/
theorem c2_witness :
    fus_outer_surfaces
        (fun k => if k = "Surf_Concrete_Outer" then some {⟨1, 5⟩} else none)
        (fun k => if k = "Surf_Steel_Outer" then some {⟨50, 2⟩} else none)
        "Surf_Concrete_Outer" "Surf_Steel_Outer" =
      Except.ok ({⟨1, 5⟩} ∪ {⟨50, 2⟩}) :=
  ((c2_fus_is_plain_union
      (fun k => if k = "Surf_Concrete_Outer" then some {⟨1, 5⟩} else none)
      (fun k => if k = "Surf_Steel_Outer" then some {⟨50, 2⟩} else none)
      "Surf_Concrete_Outer" "Surf_Steel_Outer" 0).2.2.1
    {⟨1, 5⟩} {⟨50, 2⟩} (by simp) (by simp)).1

/-- `encastrement_GBS` (`def_boundaryconditions.py` lines 11-54).
Arguments: the instance-name registry of the assembly, the GBS instance
name from `names`, and the face set returned by the `Y = 0` bounding-box
probe.  `Except.ok true` means the base Set and the `EncastreBC` were
created; `Except.ok false` means the function PRINTED an error and
returned WITHOUT applying any boundary condition (lines 38-40). -/
def encastrement_GBS (a_instances : Finset String) (inst_name : String)
    (bottom_faces : Finset Face) : Except String Bool :=
  if inst_name ∉ a_instances then
    Except.error ("ERREUR : L instance " ++ inst_name ++ " est introuvable dans l assemblage.")
  else if bottom_faces = ∅ then
    Except.ok false
  else
    Except.ok true

/-- `create_tie_tower_gbs` (`def_boundaryconditions.py` lines 60-126):
both interface probes are checked; an empty result raises `ValueError`
(lines 81-82 and 96-97); otherwise the two surfaces and the Tie are
created. -/
def create_tie_tower_gbs (faces_tower faces_gbs : Finset Face) : Except String Unit :=
  if faces_tower = ∅ then
    Except.error "ERREUR CRITIQUE : Aucune face de la TOUR trouvee."
  else if faces_gbs = ∅ then
    Except.error "ERREUR CRITIQUE : Aucune face du GBS trouvee."
  else
    Except.ok ()

/-- Claim C3 as stated by the spec: every critical-region function,
`encastrement_GBS` included, raises when its probe comes back empty. -/
def encastrement_claimed_spec : Prop :=
  ∀ (a_instances : Finset String) (inst_name : String),
    inst_name ∈ a_instances →
      exceptOk (encastrement_GBS a_instances inst_name ∅) = false

/-- Claim C3, counterexample: with the GBS instance present but the
`Y = 0` probe empty, `encastrement_GBS` returns normally (it only
prints) and silently skips the boundary condition, instead of raising. -/
theorem c3_counterexample : ¬ encastrement_claimed_spec := by
  intro hclaim
  have h := hclaim {"Inst_GBS_1"} "Inst_GBS_1" (by simp)
  simp [encastrement_GBS, exceptOk] at h

/-- Claim C3 (amended): the tie-interface probes
(`create_tie_tower_gbs`) raise on an empty result, and the global
outer-skin lookup (`fus_outer_surfaces`) raises on a missing surface;
but the base-footprint probe of `encastrement_GBS` does NOT raise on an
empty result: it prints an error and returns without applying the
boundary condition (it raises only for a missing instance). -/
theorem c3_critical_region_errors (a_instances : Finset String) (inst_name : String)
    (faces_tower faces_gbs : Finset Face)
    (gbs_surfs tower_surfs : String → Option (Finset Face)) (kg kt : String) :
    (exceptOk (create_tie_tower_gbs ∅ faces_gbs) = false) ∧
    (exceptOk (create_tie_tower_gbs faces_tower ∅) = false) ∧
    (gbs_surfs kg = none →
      exceptOk (fus_outer_surfaces gbs_surfs tower_surfs kg kt) = false) ∧
    (inst_name ∈ a_instances →
      encastrement_GBS a_instances inst_name ∅ = Except.ok false) ∧
    (inst_name ∉ a_instances →
      exceptOk (encastrement_GBS a_instances inst_name ∅) = false) := by
  refine ⟨?_, ?_, ?_, ?_, ?_⟩
  · simp [create_tie_tower_gbs, exceptOk]
  · by_cases h : faces_tower = ∅
    · simp [create_tie_tower_gbs, h, exceptOk]
    · simp [create_tie_tower_gbs, h, exceptOk]
  · intro hg
    simp [fus_outer_surfaces, hg, exceptOk]
  · intro hmem
    simp [encastrement_GBS, hmem]
  · intro hnot
    simp [encastrement_GBS, hnot, exceptOk]

/-- Claim C3, witness: the amended theorem at the `main.py` instance
name — empty tie probes raise; the empty base probe returns `ok false`
(no raise, no boundary condition). -/
theorem c3_witness :
    exceptOk (create_tie_tower_gbs (∅ : Finset Face) {⟨0, 1⟩}) = false ∧
    encastrement_GBS {"Inst_GBS_1"} "Inst_GBS_1" ∅ = Except.ok false := by
  have h := c3_critical_region_errors {"Inst_GBS_1"} "Inst_GBS_1" ∅ {⟨0, 1⟩}
    (fun _ => none) (fun _ => none) "Surf_Concrete_Outer" "Surf_Steel_Outer"
  exact ⟨h.1, h.2.2.2.1 (by simp)⟩

/-- `create_monitor_point_top` (`def_geometrie.py` lines 478-552).  The
whole body runs inside `try/except`, which converts any raised exception
into `return False`.  `verts` and `edges` are the element counts the two
bounding-box probes return; `rest` models whether the remaining Abaqus
calls of the taken branch (Set / ReferencePoint / Surface / Coupling
creation) succeed or raise. -/
def create_monitor_point_top (dim_type : String) (verts edges : ℕ)
    (rest : Except String Unit) : Bool :=
  let body : Except String Bool :=
    if dim_type = "1D" then
      if 0 < verts then
        match rest with
        | Except.ok _ => Except.ok true
        | Except.error e => Except.error e
      else Except.ok false
    else
      if edges = 0 then Except.ok false
      else
        match rest with
        | Except.ok _ => Except.ok true
        | Except.error e => Except.error e
  match body with
  | Except.ok b => b
  | Except.error _ => false

/-- `create_monitor_point_GBS` (`def_geometrie.py` lines 555-642),
assuming the named GBS part and instance exist (the partition step is
wrapped in its own try/except and does not affect the result).  `probe r`
is the number of vertices the bounding box centred at
`(r, h_monitor, 0)` returns.  In the cone zone the code divides by
`cone_height`, which raises `ZeroDivisionError` when it is zero. -/
def create_monitor_point_GBS (p : GeomParams) (h_monitor : ℚ)
    (probe : ℚ → ℕ) : Except String Bool :=
  let h_plat := p.plateau_height
  let h_cone := p.cone_height
  let r_int_bot := p.cone_bottom_outer_radius - p.cone_thickness
  let r_int_top := p.cone_top_outer_radius - p.cone_thickness
  if h_monitor < h_plat then Except.ok false
  else if h_monitor ≤ h_plat + h_cone then
    if h_cone = 0 then Except.error "ZeroDivisionError"
    else
      let ratio := (h_monitor - h_plat) / h_cone
      let r_target := r_int_bot + (r_int_top - r_int_bot) * ratio
      if probe r_target = 0 then Except.ok false else Except.ok true
  else
    if probe r_int_top = 0 then Except.ok false else Except.ok true

/-- Claim C7: assuming the named parts/instances exist, the monitor
creators return `True` on success and `False` on every probe failure —
empty top-vertex probe (1D), empty top-edge probe (3D), empty internal
vertex probe (GBS) — and `create_monitor_point_top` absorbs every raised
exception into `False` instead of propagating it. -/
theorem c7_monitor_soft_fail (dim_type : String) (verts edges : ℕ)
    (rest : Except String Unit) (msg : String) (p : GeomParams) (h_monitor : ℚ)
    (probe : ℚ → ℕ) :
    (create_monitor_point_top "1D" 0 edges rest = false) ∧
    (dim_type ≠ "1D" → create_monitor_point_top dim_type verts 0 rest = false) ∧
    (create_monitor_point_top dim_type verts edges (Except.error msg) = false) ∧
    (0 < verts → create_monitor_point_top "1D" verts edges (Except.ok ()) = true) ∧
    (dim_type ≠ "1D" → 0 < edges →
      create_monitor_point_top dim_type verts edges (Except.ok ()) = true) ∧
    ((∀ r, probe r = 0) → p.plateau_height ≤ h_monitor →
      (h_monitor ≤ p.plateau_height + p.cone_height → p.cone_height ≠ 0) →
      create_monitor_point_GBS p h_monitor probe = Except.ok false) := by
  refine ⟨?_, ?_, ?_, ?_, ?_, ?_⟩
  · simp [create_monitor_point_top]
  · intro hne
    simp [create_monitor_point_top, hne]
  · by_cases hdim : dim_type = "1D"
    · by_cases hv : 0 < verts <;>
        simp [create_monitor_point_top, hdim, hv]
    · by_cases he : edges = 0 <;>
        simp [create_monitor_point_top, hdim, he]
  · intro hv
    simp [create_monitor_point_top, hv]
  · intro hne he
    simp [create_monitor_point_top, hne, Nat.pos_iff_ne_zero.mp he]
  · intro hprobe hgec hdiv
    simp only [create_monitor_point_GBS]
    rw [if_neg (not_lt.mpr hgec)]
    by_cases hle : h_monitor ≤ p.plateau_height + p.cone_height
    · rw [if_pos hle, if_neg (hdiv hle), if_pos (hprobe _)]
    · rw [if_neg hle, if_pos (hprobe _)]

/-- Claim C7, witness: the theorem at a 3D tower with an empty top-edge
probe, and at the `main.py` GBS parameters with `h_monitor = 42.65` and
an everywhere-empty vertex probe: both monitor creators soft-fail. -/
theorem c7_witness :
    create_monitor_point_top "3D" 3 0 (Except.ok ()) = false ∧
    create_monitor_point_GBS main_param_geom 42.65 (fun _ => 0) = Except.ok false := by
  have h := c7_monitor_soft_fail "3D" 3 0 (Except.ok ()) "boom" main_param_geom 42.65
    (fun _ => 0)
  refine ⟨h.2.1 (by simp), h.2.2.2.2.2 (fun r => rfl) ?_ ?_⟩
  · norm_num [main_param_geom]
  · intro _
    norm_num [main_param_geom]
